import Mathlib

/-!
Verification of the webhook relay in iaremarkus/vercel-project-notifications.

Shallow embedding of the three TypeScript modules:
  * `api/vercel-notifications-to-telegram.ts` (request handler). The file in
    the repository snapshot contains three revisions of the same default
    export; the authoritative one transcribed here is the final revision
    (the segment at lines 134-242), the one whose comments record the fix
    history: it length-checks the two buffers before `timingSafeEqual` and
    compares against the bare 40-character hex digest with no `sha1=` prefix.
  * `src/telegramService.ts` (`sendTelegramMessage`, `escapeMarkdown`).
  * `src/formatVercelMessageForTelegram.ts` and `types.ts`.

Strings are embedded as `List Char` (Lean 4 `String` wraps exactly that, and
list induction is what the proofs need). Library primitives that are not code
of this repository, namely Node `crypto` HMAC-SHA1, `JSON.parse`,
`Date.toLocaleString` and the `fetch` transport, enter as explicit parameters
of the handler context; every branch, comparison and string the repository
itself builds is transcribed.

Observable effects (digest computation, the `timingSafeEqual` call, JSON
parsing, the dispatcher invocation, outbound HTTP requests) are recorded in an
event trace so that ordering and never-called properties are statable.
-/

/-- Strings of the TypeScript program, as lists of characters. -/
abbrev Str := List Char

/-- Shorthand turning a Lean string literal into `Str`. -/
def S (s : String) : Str := s.data

/-- UTF-8 encoding of one character, as Node `Buffer.from(-, "utf-8")` does it. -/
def utf8EncodeChar (c : Char) : List Nat :=
  let n := c.toNat
  if n < 0x80 then [n]
  else if n < 0x800 then [0xC0 + n / 64, 0x80 + n % 64]
  else if n < 0x10000 then [0xE0 + n / 4096, 0x80 + (n / 64) % 64, 0x80 + n % 64]
  else [0xF0 + n / 262144, 0x80 + (n / 4096) % 64, 0x80 + (n / 64) % 64, 0x80 + n % 64]

/-- UTF-8 encoding of a string; `(utf8Encode s).length` is `Buffer.byteLength`. -/
def utf8Encode (s : Str) : List Nat := s.flatMap utf8EncodeChar

/-- JavaScript truthiness of a `string | undefined` value: `undefined` and the
empty string are falsy. Used for every `if (!x)` guard in the source. -/
def jsTruthy : Option Str → Bool
  | none => false
  | some s => !(s == [])

/-- JavaScript `a || b` on `string | undefined` operands. -/
def jsOr (a b : Option Str) : Option Str := if jsTruthy a then a else b

/-- JavaScript `a || d` where the right operand is a definite string. -/
def jsOrD (a : Option Str) (d : Str) : Str :=
  match a with
  | none => d
  | some s => if s == [] then d else s

/-- Input type of `escapeMarkdown` in `src/utils/escapeMarkdown.ts`:
`string | undefined | null`. -/
inductive StrOrNull where
  | undef : StrOrNull
  | null : StrOrNull
  | str : Str → StrOrNull

/-- Lift an optional-chaining result (`string | undefined`) into `StrOrNull`. -/
def ofOption : Option Str → StrOrNull
  | none => .undef
  | some s => .str s

/-- The character class of the regex `/[_*[\]()~`>#+\-=|{}.!]/g` in
`escapeMarkdown`: the Telegram MarkdownV2 reserved characters. -/
def isReserved (c : Char) : Bool :=
  [ '_', '*', '[', ']', '(', ')', '~', '\x60', '>', '#', '+', '-', '=', '|',
    '\x7b', '\x7d', '.', '!' ].contains c

/-- `text.replace(charsToEscape, "\\$&")`: each reserved character is replaced
by a backslash followed by the character itself; the global regex walks the
string left to right. -/
def escapeCore : Str → Str
  | [] => []
  | c :: rest => (if isReserved c then ['\\', c] else [c]) ++ escapeCore rest

/-- `escapeMarkdown` from `src/utils/escapeMarkdown.ts`: `null` and `undefined`
escape to the empty string, otherwise every MarkdownV2 reserved character is
prefixed with a backslash. -/
def escapeMarkdown : StrOrNull → Str
  | .undef => []
  | .null => []
  | .str t => escapeCore t

-- Data model from `types.ts`.

/-- `payload.deployment.meta` of `VercelWebhook` (git metadata). -/
structure DeploymentMeta where
  githubCommitAuthorName : Option Str
  githubCommitMessage : Option Str
  githubCommitRef : Option Str
  githubCommitSha : Option Str
deriving DecidableEq

/-- `payload.deployment` of `VercelWebhook`. The source field `alias` is named
`aliases` here because `alias` is a reserved command name in this Lean
environment. -/
structure DeploymentInfo where
  id : Str
  name : Str
  url : Str
  state : Option Str
  target : Option Str
  aliases : Option (List Str)
  meta : Option DeploymentMeta
  inspectorUrl : Option Str
  errorMessage : Option Str
deriving DecidableEq

/-- `payload.project` of `VercelWebhook`. -/
structure ProjectInfo where
  id : Str
  name : Str
deriving DecidableEq

/-- `payload.error` of `VercelWebhook`. -/
structure ErrorInfo where
  code : Option Str
  message : Option Str
deriving DecidableEq

/-- `payload.attack` of `VercelWebhook`. -/
structure AttackInfo where
  type : Str
  description : Str
  source : Option Str
  target : Str
  mitigation : Option Str
  inspectorUrl : Option Str
deriving DecidableEq

/-- The `payload` object of `VercelWebhook`; each nested object is optional. -/
structure WebhookPayload where
  deployment : Option DeploymentInfo
  project : Option ProjectInfo
  error : Option ErrorInfo
  attack : Option AttackInfo
  promotedAlias : Option (List Str)
  previousAliases : Option (List Str)
deriving DecidableEq

/-- The parsed webhook event (`VercelWebhook` in `types.ts`). -/
structure VercelWebhook where
  id : Str
  type : Str
  createdAt : Int
  userId : Str
  teamId : Option Str
  payload : WebhookPayload
deriving DecidableEq

-- `src/telegramService.ts`.

/-- The `parse_mode` selector of the Telegram `sendMessage` payload. -/
inductive ParseMode where
  | markdownV2
  | html
deriving DecidableEq

/-- The JSON body posted to the Telegram API; `parse_mode` is omitted
(`none`) when no mode was specified. -/
structure SendMessagePayload where
  chat_id : Str
  text : Str
  parse_mode : Option ParseMode
deriving DecidableEq

/-- The Telegram API response shape; `result` is `any` in the source and is
kept abstract as an optional string. -/
structure TelegramResponse where
  ok : Bool
  result : Option Str
  description : Option Str
  error_code : Option Int
deriving DecidableEq

/-- Behaviour of the `fetch` call, supplied by the environment: either the
promise rejects (network-layer exception) or a response arrives with an HTTP
status and a body whose `.json()` either parses (`some`) or throws (`none`). -/
inductive FetchOutcome where
  | netError
  | response (status : Nat) (jsonBody : Option TelegramResponse)
deriving DecidableEq

/-- `Response.ok` of the Fetch API: status in the inclusive range 200-299. -/
def responseOk (status : Nat) : Bool := 200 ≤ status && status ≤ 299

/-- Result of `sendTelegramMessage`: the boolean the function returns plus the
list of outbound HTTP requests it issued (empty when `fetch` was never
reached). -/
structure SendResult where
  success : Bool
  requests : List SendMessagePayload
deriving DecidableEq

/-- `sendTelegramMessage` from `src/telegramService.ts`. The module-level
`BOT_TOKEN` constant (read from `process.env.TELEGRAM_BOT_TOKEN`) is passed
explicitly. Every `return false` path of the source is a `success := false`
here: missing token, network exception, non-2xx status (whether or not the
error body parses), and a 2xx body with `ok: false`. A 2xx body whose
`.json()` throws propagates to the outer catch, hence also `false`. -/
def sendTelegramMessage (botToken : Option Str) (chatId : Str)
    (messageText : Str) (parseMode : Option ParseMode)
    (outcome : FetchOutcome) : SendResult :=
  match botToken with
  | none => { success := false, requests := [] }
  | some tok =>
    if tok = [] then { success := false, requests := [] }
    else
      let payload : SendMessagePayload :=
        { chat_id := chatId, text := messageText, parse_mode := parseMode }
      match outcome with
      | .netError => { success := false, requests := [payload] }
      | .response st body =>
        if responseOk st = false then
          { success := false, requests := [payload] }
        else
          match body with
          | none => { success := false, requests := [payload] }
          | some data => { success := data.ok, requests := [payload] }

-- `src/formatVercelMessageForTelegram.ts`.

/-- Result of the message formatter: the newline-joined text it returns, plus
the `console.log` diagnostics it emits while computing it (the source logs the
raw event type in the `default` switch branch; the entry recorded here is that
type tag). -/
structure FormatResult where
  text : Str
  logs : List Str
deriving DecidableEq

/-- `messageLines.join("\n")`. -/
def joinLines : List Str → Str
  | [] => []
  | [l] => l
  | l :: ls => l ++ '\n' :: joinLines ls

/-- `", "` separated join used for the domain alias lists. -/
def joinCommaSep (ls : List Str) : Str := List.intercalate (S ", ") ls

/-- The event types with a dedicated `switch` case in the formatter; every
other type falls through to the `default` renderer. -/
def recognizedTypes : List Str :=
  [ S "deployment.created", S "deployment.succeeded", S "deployment.error",
    S "deployment.canceled", S "deployment.promoted", S "project.created",
    S "project.removed", S "attack.detected" ]

/-- The formatter body: builds the ordered `messageLines` list exactly as the
`switch` in `formatVercelMessageForTelegram` does, and the list of
`console.log` diagnostics (one entry, the raw type tag, in the `default`
branch; none elsewhere). `toLocaleString` stands for
`new Date(createdAt).toLocaleString()`, a function of the ambient locale. -/
def formatCore (toLocaleString : Int → Str) (webhook : VercelWebhook) :
    List Str × List Str :=
  let type := webhook.type
  let payload := webhook.payload
  let createdAt := webhook.createdAt
  let projectName :=
    escapeMarkdown (.str (jsOrD
      (jsOr (payload.deployment.map DeploymentInfo.name)
            (payload.project.map ProjectInfo.name)) (S "N/A")))
  let deploymentUrl : Option Str := payload.deployment.map DeploymentInfo.url
  let inspectorUrl : Option Str :=
    jsOr (payload.deployment.bind DeploymentInfo.inspectorUrl)
         (payload.attack.bind AttackInfo.inspectorUrl)
  let genericTitle := S "🔔 *Vercel Notification*"
  let timeLine :=
    S "*Time:* `" ++ escapeMarkdown (.str (toLocaleString createdAt)) ++ S "`"
  let addCommonDetails (customTitle : Option Str) : List Str :=
    [jsOrD customTitle genericTitle, S "*Project:* " ++ projectName]
    ++ (if jsTruthy deploymentUrl then
          [S "*Deployment URL:* [" ++ escapeMarkdown (.str (deploymentUrl.getD []))
            ++ S "](" ++ escapeMarkdown (.str (deploymentUrl.getD [])) ++ S ")"]
        else [])
    ++ (if jsTruthy inspectorUrl then
          [S "*Details:* [View on Vercel]("
            ++ escapeMarkdown (.str (inspectorUrl.getD [])) ++ S ")"]
        else [])
    ++ [timeLine]
  let ghRef : Option Str :=
    (payload.deployment.bind DeploymentInfo.meta).bind DeploymentMeta.githubCommitRef
  let ghAuthor : Option Str :=
    (payload.deployment.bind DeploymentInfo.meta).bind DeploymentMeta.githubCommitAuthorName
  let branchBlock : List Str :=
    if jsTruthy ghRef then
      [S "*Branch:* `" ++ escapeMarkdown (.str (ghRef.getD [])) ++ S "`"]
    else []
  let aliasBlock (label : Str) : List Str :=
    match payload.deployment.bind DeploymentInfo.aliases with
    | some al =>
        if 0 < al.length then
          [label ++ joinCommaSep (al.map (fun a =>
            S "`" ++ escapeMarkdown (.str a) ++ S "`"))]
        else []
    | none => []
  if type = S "deployment.created" then
    (addCommonDetails (some (S "🚀 *Deployment Created*"))
      ++ branchBlock
      ++ (if jsTruthy ghAuthor then
            [S "*Author:* `" ++ escapeMarkdown (.str (ghAuthor.getD [])) ++ S "`"]
          else []), [])
  else if type = S "deployment.succeeded" then
    (addCommonDetails (some (S "✅ *Deployment Succeeded*"))
      ++ (if payload.deployment.bind DeploymentInfo.target = some (S "production") then
            [S "🎯 *Target:* `PRODUCTION`"]
          else [])
      ++ aliasBlock (S "*Domains:* ")
      ++ branchBlock, [])
  else if type = S "deployment.error" then
    let errorMessage :=
      escapeMarkdown (.str (jsOrD
        (jsOr (payload.error.bind ErrorInfo.message)
              (payload.deployment.bind DeploymentInfo.errorMessage))
        (S "No specific error message provided.")))
    let errorCode := escapeMarkdown (ofOption (payload.error.bind ErrorInfo.code))
    (addCommonDetails (some (S "❌ *Deployment Error*"))
      ++ [S "*Error:* " ++ errorMessage]
      ++ (if errorCode = [] then [] else [S "*Code:* `" ++ errorCode ++ S "`"]), [])
  else if type = S "deployment.canceled" then
    (addCommonDetails (some (S "🚫 *Deployment Canceled*")), [])
  else if type = S "deployment.promoted" then
    (addCommonDetails (some (S "🌟 *Deployment Promoted to Production*"))
      ++ aliasBlock (S "*Production Domains:* "), [])
  else if type = S "project.created" then
    ([S "🎉 *Project Created*", S "*Project Name:* " ++ projectName, timeLine], [])
  else if type = S "project.removed" then
    ([S "🗑️ *Project Removed*", S "*Project Name:* " ++ projectName, timeLine], [])
  else if type = S "attack.detected" then
    ([S "🛡️ *Security Attack Detected*",
      S "*Project/Target:* "
        ++ escapeMarkdown (.str (jsOrD (payload.attack.map AttackInfo.target) projectName)),
      S "*Attack Type:* `"
        ++ escapeMarkdown (ofOption (payload.attack.map AttackInfo.type)) ++ S "`",
      S "*Description:* "
        ++ escapeMarkdown (ofOption (payload.attack.map AttackInfo.description))]
      ++ (if jsTruthy (payload.attack.bind AttackInfo.source) then
            [S "*Source:* `"
              ++ escapeMarkdown (.str ((payload.attack.bind AttackInfo.source).getD []))
              ++ S "`"]
          else [])
      ++ [timeLine], [])
  else
    (addCommonDetails (some (S "ℹ️ *Vercel Notification*"))
      ++ [S "*Event Type:* `" ++ escapeMarkdown (.str type) ++ S "`",
          S "_Raw payload logged for unhandled event type. Please check server logs._"],
      [type])

/-- `formatVercelMessageForTelegram`: the newline-joined message, together with
the `console.log` diagnostics emitted while formatting. -/
def formatVercelMessageForTelegram (toLocaleString : Int → Str)
    (webhook : VercelWebhook) : FormatResult :=
  { text := joinLines (formatCore toLocaleString webhook).1
    logs := (formatCore toLocaleString webhook).2 }

-- `api/vercel-notifications-to-telegram.ts` (final revision, lines 134-242).

/-- Observable events of one handler run, in execution order: the HMAC digest
computation over the raw body, the `timingSafeEqual` call with the two byte
buffers and its result, the `JSON.parse` attempt on the raw body, the
invocation of the dispatcher (`sendTelegramMessage`), and each outbound HTTP
request the dispatcher issued. -/
inductive TraceEvent where
  | computedDigest (input : List Nat) (digest : Str)
  | timingSafeCompared (a b : List Nat) (result : Bool)
  | jsonParsed (input : List Nat) (success : Bool)
  | dispatched (chatId : Str) (text : Str) (mode : Option ParseMode)
  | httpRequest (p : SendMessagePayload)
deriving DecidableEq

/-- Process-wide configuration read from `process.env`; `none` models an unset
variable (the source guards treat the empty string the same way, via `!x`). -/
structure Env where
  VERCEL_WEBHOOK_SECRET : Option Str
  TELEGRAM_TARGET_CHAT_ID : Option Str
  TELEGRAM_BOT_TOKEN : Option Str
deriving DecidableEq

/-- The inbound request as the handler sees it: the method string, the
`x-vercel-signature` header (absent or its value), and the outcome of
`getRawBody` (`none` when the body stream errors, otherwise the raw bytes,
captured before any JSON parsing because `bodyParser` is disabled). -/
structure VercelRequest where
  method : Str
  signatureHeader : Option Str
  rawBody : Option (List Nat)
deriving DecidableEq

/-- The response the handler produced plus the event trace of the run. -/
structure HandlerResult where
  status : Nat
  body : Str
  allowHeader : Option Str
  trace : List TraceEvent
deriving DecidableEq

/-- Library primitives the handler calls, supplied by the environment:
`hmacSha1Hex data secret` is `createHmac("sha1", secret).update(data).digest("hex")`
from Node `crypto`; `parseJsonBytes` is `JSON.parse(buf.toString("utf-8"))`
(`none` when it throws); `toLocaleString` renders a timestamp in the ambient
locale; `fetchOutcome` is the behaviour of the Telegram transport. -/
structure HandlerCtx where
  hmacSha1Hex : List Nat → Str → Str
  parseJsonBytes : List Nat → Option VercelWebhook
  toLocaleString : Int → Str
  fetchOutcome : FetchOutcome

/-- `calculateSha1Hash` helper of the source: applies the HMAC-SHA1 hex
primitive to the raw body and the shared secret. -/
def calculateSha1Hash (hmacSha1Hex : List Nat → Str → Str)
    (data : List Nat) (secret : Str) : Str :=
  hmacSha1Hex data secret

/-- Node `crypto.timingSafeEqual` on two equal-length byte buffers. Its timing
behaviour is not representable here, only its decision; Node throws a
`RangeError` on unequal-length buffers, which is why the handler length-checks
first, and why the trace records every call made to it. -/
def timingSafeEqual (a b : List Nat) : Bool := a == b

/-- The tail of the handler after signature verification succeeded (source
lines 204-241): parse the raw body as JSON (400 on failure), acknowledge with
200 if no target chat is configured, otherwise format the event, invoke the
dispatcher with `parse_mode` `MarkdownV2`, and map its boolean to 200 or 500. -/
def handleVerified (ctx : HandlerCtx) (env : Env) (rawBodyBuffer : List Nat)
    (t : List TraceEvent) : HandlerResult :=
  match ctx.parseJsonBytes rawBodyBuffer with
  | none =>
    { status := 400, body := S "Invalid JSON payload.", allowHeader := none
      trace := t ++ [TraceEvent.jsonParsed rawBodyBuffer false] }
  | some webhookPayload =>
    let t2 := t ++ [TraceEvent.jsonParsed rawBodyBuffer true]
    let ackResult : HandlerResult :=
      { status := 200
        body := S "Webhook received, but Telegram chat ID not configured."
        allowHeader := none, trace := t2 }
    match env.TELEGRAM_TARGET_CHAT_ID with
    | none => ackResult
    | some chatId =>
      if chatId = [] then ackResult
      else
        let telegramMessage :=
          (formatVercelMessageForTelegram ctx.toLocaleString webhookPayload).text
        let sendRes :=
          sendTelegramMessage env.TELEGRAM_BOT_TOKEN chatId telegramMessage
            (some ParseMode.markdownV2) ctx.fetchOutcome
        let t3 := t2
          ++ TraceEvent.dispatched chatId telegramMessage (some ParseMode.markdownV2)
            :: sendRes.requests.map TraceEvent.httpRequest
        if sendRes.success then
          { status := 200, body := S "Notification sent to Telegram."
            allowHeader := none, trace := t3 }
        else
          { status := 500, body := S "Failed to send Telegram notification."
            allowHeader := none, trace := t3 }

/-- The request handler (final revision): 405 for non-POST with an
`Allow: POST` header, 500 when the signing secret is unset, 401 when the
signature header is missing, 500 when reading the raw body fails, then the
bare HMAC-SHA1 hex digest of the raw bytes is computed, the UTF-8 byte lengths
of the received header and the digest are compared BEFORE `timingSafeEqual`
(length mismatch is a 401, and `timingSafeEqual` is not called), a failed
constant-time comparison is a 401, and only then is the body parsed and
dispatched via `handleVerified`. -/
def handler (ctx : HandlerCtx) (env : Env) (req : VercelRequest) : HandlerResult :=
  if req.method ≠ S "POST" then
    { status := 405, body := S "Method Not Allowed"
      allowHeader := some (S "POST"), trace := [] }
  else
    let configError : HandlerResult :=
      { status := 500, body := S "Internal server configuration error."
        allowHeader := none, trace := [] }
    let sigMissing : HandlerResult :=
      { status := 401, body := S "Signature missing."
        allowHeader := none, trace := [] }
    match env.VERCEL_WEBHOOK_SECRET with
    | none => configError
    | some vercelWebhookSecret =>
      if vercelWebhookSecret = [] then configError
      else
        match req.signatureHeader with
        | none => sigMissing
        | some receivedSignatureHeader =>
          if receivedSignatureHeader = [] then sigMissing
          else
            match req.rawBody with
            | none =>
              { status := 500, body := S "Error processing request body."
                allowHeader := none, trace := [] }
            | some rawBodyBuffer =>
              let expectedHash :=
                calculateSha1Hash ctx.hmacSha1Hex rawBodyBuffer vercelWebhookSecret
              let receivedSignatureBuffer := utf8Encode receivedSignatureHeader
              let expectedHashBuffer := utf8Encode expectedHash
              let t := [TraceEvent.computedDigest rawBodyBuffer expectedHash]
              if receivedSignatureBuffer.length ≠ expectedHashBuffer.length then
                { status := 401, body := S "Invalid signature due to length mismatch."
                  allowHeader := none, trace := t }
              else
                let cmp := timingSafeEqual receivedSignatureBuffer expectedHashBuffer
                let t1 := t ++
                  [TraceEvent.timingSafeCompared receivedSignatureBuffer
                    expectedHashBuffer cmp]
                if cmp then handleVerified ctx env rawBodyBuffer t1
                else
                  { status := 401, body := S "Invalid signature."
                    allowHeader := none, trace := t1 }

-- Concrete fixtures used by witnesses and counterexamples.

/-- A successful Telegram API body: `{"ok": true}`. -/
def telegramOkBody : TelegramResponse :=
  { ok := true, result := none, description := none, error_code := none }

/-- A fixed locale rendering, standing for one ambient process locale. -/
def locFix : Int → Str := fun _ => S "11/14/2023, 10:13:20 PM"

/-- The deployment object of the scenario event in the spec: name `my-app`,
url `my-app.vercel.app`, target `production`, alias `["my-app.com"]`. -/
def scenarioDeployment : DeploymentInfo :=
  { id := S "dpl_1", name := S "my-app", url := S "my-app.vercel.app"
    state := none, target := some (S "production")
    aliases := some [S "my-app.com"], meta := none
    inspectorUrl := none, errorMessage := none }

/-- The `deployment.succeeded` scenario event of the spec, with
`createdAt = 1700000000000`. -/
def scenarioEvent : VercelWebhook :=
  { id := S "evt_1", type := S "deployment.succeeded"
    createdAt := 1700000000000, userId := S "user_1", teamId := none
    payload :=
      { deployment := some scenarioDeployment, project := none, error := none
        attack := none, promotedAlias := none, previousAliases := none } }

/-- The exact JSON body of the spec scenario, as raw UTF-8 bytes. -/
def scenarioBody : List Nat :=
  utf8Encode (S "\x7b\"type\":\"deployment.succeeded\",\"createdAt\":1700000000000,\"payload\":\x7b\"deployment\":\x7b\"name\":\"my-app\",\"url\":\"my-app.vercel.app\",\"target\":\"production\",\"alias\":[\"my-app.com\"]\x7d\x7d\x7d")

/-- An event with a type the formatter has no `switch` case for, and an
otherwise empty payload. -/
def unknownEvent : VercelWebhook :=
  { id := S "evt_2", type := S "something.new", createdAt := 0
    userId := S "user_1", teamId := none
    payload :=
      { deployment := none, project := none, error := none, attack := none
        promotedAlias := none, previousAliases := none } }

/-- A concrete handler context for the scenario runs: a fixed two-character
digest for the HMAC primitive, a JSON parser that recognises exactly the
scenario body, the fixed locale, and a Telegram transport answering 200
`{"ok": true}`. -/
def scenarioCtx : HandlerCtx :=
  { hmacSha1Hex := fun _ _ => S "0a"
    parseJsonBytes := fun bs => if bs = scenarioBody then some scenarioEvent else none
    toLocaleString := locFix
    fetchOutcome := .response 200 (some telegramOkBody) }

/-- A handler context whose JSON parser rejects everything; used by runs that
end before or at the parse step. -/
def rejectCtx : HandlerCtx :=
  { hmacSha1Hex := fun _ _ => S "0a"
    parseJsonBytes := fun _ => none
    toLocaleString := locFix
    fetchOutcome := .response 200 (some telegramOkBody) }

/-- The first line each formatter branch pushes: the eight case titles and
the `default` branch title. -/
def titleLines : List Str :=
  [ S "🚀 *Deployment Created*", S "✅ *Deployment Succeeded*",
    S "❌ *Deployment Error*", S "🚫 *Deployment Canceled*",
    S "🌟 *Deployment Promoted to Production*", S "🎉 *Project Created*",
    S "🗑️ *Project Removed*", S "🛡️ *Security Attack Detected*",
    S "ℹ️ *Vercel Notification*" ]

-- Helper lemmas about the escaper.

/-- The escape character itself is not in the reserved class. -/
theorem isReserved_backslash : isReserved '\\' = false := by decide

/-- A string with no reserved characters escapes to itself. -/
theorem escapeCore_no_reserved (t : Str) (h : ∀ c ∈ t, isReserved c = false) :
    escapeCore t = t := by
  induction t with
  | nil => rfl
  | cons c rest ih =>
    simp [escapeCore, h c (List.mem_cons_self c rest),
      ih (fun x hx => h x (List.mem_cons_of_mem c hx))]

/-- Escaping grows the string by one backslash per reserved character. -/
theorem escapeCore_length (t : Str) :
    (escapeCore t).length = t.length + t.countP isReserved := by
  induction t with
  | nil => simp [escapeCore]
  | cons c rest ih =>
    cases hc : isReserved c
    · simp [escapeCore, hc, List.countP_cons, ih]
      omega
    · simp [escapeCore, hc, List.countP_cons, ih]
      omega

/-- Escaping preserves the number of reserved characters: the inserted
backslashes are not reserved and the reserved characters are kept. -/
theorem escapeCore_countP (t : Str) :
    (escapeCore t).countP isReserved = t.countP isReserved := by
  induction t with
  | nil => rfl
  | cons c rest ih =>
    cases hc : isReserved c
    · simp [escapeCore, hc, List.countP_cons, ih]
    · simp [escapeCore, hc, List.countP_cons, ih, isReserved_backslash]

/-- In an escaped string, every reserved character sits at a positive index
and is immediately preceded by a backslash ('a' is the out-of-range default;
it is neither reserved nor a backslash). -/
theorem escapeCore_getD (s : Str) :
    ∀ i, isReserved ((escapeCore s).getD i 'a') = true →
      0 < i ∧ (escapeCore s).getD (i - 1) 'a' = '\\' := by
  induction s with
  | nil =>
    intro i h
    exfalso
    have hd : (escapeCore ([] : Str)).getD i 'a' = 'a' := by cases i <;> rfl
    rw [hd] at h
    exact absurd h (by decide)
  | cons c rest ih =>
    intro i h
    cases hc : isReserved c
    · have he : escapeCore (c :: rest) = c :: escapeCore rest := by
        simp [escapeCore, hc]
      rw [he] at h
      cases i with
      | zero =>
        rw [List.getD_cons_zero] at h
        exact absurd h (by simp [hc])
      | succ n =>
        rw [List.getD_cons_succ] at h
        obtain ⟨hn, hD⟩ := ih n h
        obtain ⟨m, rfl⟩ : ∃ m, n = m + 1 := ⟨n - 1, by omega⟩
        refine ⟨by omega, ?_⟩
        rw [he]
        simpa using hD
    · have he : escapeCore (c :: rest) = '\\' :: c :: escapeCore rest := by
        simp [escapeCore, hc]
      rw [he] at h
      cases i with
      | zero =>
        rw [List.getD_cons_zero] at h
        exact absurd h (by decide)
      | succ n =>
        cases n with
        | zero => exact ⟨by omega, by rw [he]; rfl⟩
        | succ m =>
          rw [List.getD_cons_succ, List.getD_cons_succ] at h
          obtain ⟨hm, hD⟩ := ih m h
          obtain ⟨k, rfl⟩ : ∃ k, m = k + 1 := ⟨m - 1, by omega⟩
          refine ⟨by omega, ?_⟩
          rw [he]
          simpa using hD

/-- C6: in `escapeMarkdown t` every reserved MarkdownV2 character is
immediately preceded by a backslash; `escapeMarkdown` composed with itself
agrees with a single application exactly when `t` contains no reserved
character, and in that case `escapeMarkdown t = t`. -/
theorem escapeMarkdown_escapes_and_idempotency (t : Str) :
    (∀ i, isReserved ((escapeMarkdown (.str t)).getD i 'a') = true →
       0 < i ∧ (escapeMarkdown (.str t)).getD (i - 1) 'a' = '\\') ∧
    (escapeMarkdown (.str (escapeMarkdown (.str t))) = escapeMarkdown (.str t) ↔
       ∀ c ∈ t, isReserved c = false) ∧
    ((∀ c ∈ t, isReserved c = false) → escapeMarkdown (.str t) = t) := by
  refine ⟨escapeCore_getD t, ⟨?_, ?_⟩, escapeCore_no_reserved t⟩
  · intro h
    have hlen := congrArg List.length h
    rw [show escapeMarkdown (.str (escapeMarkdown (.str t))) =
          escapeCore (escapeCore t) from rfl] at hlen
    rw [show escapeMarkdown (.str t) = escapeCore t from rfl] at hlen
    rw [escapeCore_length (escapeCore t), escapeCore_countP] at hlen
    have hcount : t.countP isReserved = 0 := by omega
    rw [List.countP_eq_zero] at hcount
    intro c hct
    have := hcount c hct
    simpa using this
  · intro h
    show escapeCore (escapeCore t) = escapeCore t
    rw [escapeCore_no_reserved t h, escapeCore_no_reserved t h]

/-- Instantiation of the C6 theorem at the concrete string `a*b`. -/
theorem escapeMarkdown_escapes_and_idempotency_check :
    (∀ i, isReserved ((escapeMarkdown (.str (S "a*b"))).getD i 'a') = true →
       0 < i ∧ (escapeMarkdown (.str (S "a*b"))).getD (i - 1) 'a' = '\\') ∧
    (escapeMarkdown (.str (escapeMarkdown (.str (S "a*b")))) =
        escapeMarkdown (.str (S "a*b")) ↔
       ∀ c ∈ S "a*b", isReserved c = false) ∧
    ((∀ c ∈ S "a*b", isReserved c = false) → escapeMarkdown (.str (S "a*b")) = S "a*b") :=
  escapeMarkdown_escapes_and_idempotency (S "a*b")

/-- C7: `escapeMarkdown` on `null` and on `undefined` returns the empty
string (and, being total, does not throw). -/
theorem escapeMarkdown_null_and_undefined :
    escapeMarkdown StrOrNull.null = [] ∧ escapeMarkdown StrOrNull.undef = [] :=
  ⟨rfl, rfl⟩

/-- C5: with the bot token configured, `sendTelegramMessage` returns `true`
exactly when the transport produced a response with a 2xx status whose JSON
body parsed and carried `ok: true`; every other remote behaviour (network
exception, non-2xx with parseable or unparseable body, 2xx with `ok: false`
or unparseable body) yields `false`, and the function is total. -/
theorem sendTelegramMessage_success_iff (tok chatId text : Str)
    (mode : Option ParseMode) (outcome : FetchOutcome) (htok : tok ≠ []) :
    (sendTelegramMessage (some tok) chatId text mode outcome).success = true ↔
      ∃ st data, outcome = FetchOutcome.response st (some data) ∧
        responseOk st = true ∧ data.ok = true := by
  cases outcome with
  | netError => simp [sendTelegramMessage, htok]
  | response st body =>
    cases hok : responseOk st
    · simp [sendTelegramMessage, htok, hok]
      intro st' data' hst hbody hok'
      rw [hst] at hok
      rw [hok] at hok'
      exact absurd hok' (by decide)
    · cases body with
      | none => simp [sendTelegramMessage, htok, hok]
      | some data =>
        simp [sendTelegramMessage, htok, hok]
        constructor
        · intro h
          exact ⟨st, data, ⟨rfl, rfl⟩, hok, h⟩
        · rintro ⟨st', data', ⟨rfl, rfl⟩, _, h⟩
          exact h

/-- Instantiation of the C5 theorem: a 200 response with body `{"ok": true}`
yields `true`. -/
theorem sendTelegramMessage_success_iff_check :
    (sendTelegramMessage (some (S "tok")) (S "42") (S "hi") none
      (FetchOutcome.response 200 (some telegramOkBody))).success = true :=
  (sendTelegramMessage_success_iff (S "tok") (S "42") (S "hi") none
    (FetchOutcome.response 200 (some telegramOkBody)) (by decide)).mpr
    ⟨200, telegramOkBody, rfl, by decide, rfl⟩

/-- C4 counterexample: on an event whose type has no `switch` case, the
formatter executes `console.log` (the source logs the raw type and payload in
the `default` branch), so "performs no I/O" fails at this concrete input. -/
theorem formatVercelMessage_unknown_type_logs :
    (formatVercelMessageForTelegram locFix unknownEvent).logs ≠ [] := by decide

/-- C4 (amended): in this embedding the formatter is a function of the event
and the ambient locale only, so identical inputs give identical strings; its
sole effect is the `default`-branch diagnostic: no `console.log` for the
eight recognized event types, exactly one (naming the raw type) otherwise. -/
theorem formatVercelMessage_logs_characterized (loc : Int → Str)
    (w : VercelWebhook) :
    (formatVercelMessageForTelegram loc w).logs =
      if w.type ∈ recognizedTypes then [] else [w.type] := by
  by_cases h1 : w.type = S "deployment.created"
  · simp +decide [formatVercelMessageForTelegram, formatCore, recognizedTypes, h1]
  · by_cases h2 : w.type = S "deployment.succeeded"
    · simp +decide [formatVercelMessageForTelegram, formatCore, recognizedTypes, h1, h2]
    · by_cases h3 : w.type = S "deployment.error"
      · simp +decide [formatVercelMessageForTelegram, formatCore, recognizedTypes, h1, h2, h3]
      · by_cases h4 : w.type = S "deployment.canceled"
        · simp +decide [formatVercelMessageForTelegram, formatCore, recognizedTypes,
            h1, h2, h3, h4]
        · by_cases h5 : w.type = S "deployment.promoted"
          · simp +decide [formatVercelMessageForTelegram, formatCore, recognizedTypes,
              h1, h2, h3, h4, h5]
          · by_cases h6 : w.type = S "project.created"
            · simp +decide [formatVercelMessageForTelegram, formatCore, recognizedTypes,
                h1, h2, h3, h4, h5, h6]
            · by_cases h7 : w.type = S "project.removed"
              · simp +decide [formatVercelMessageForTelegram, formatCore, recognizedTypes,
                  h1, h2, h3, h4, h5, h6, h7]
              · by_cases h8 : w.type = S "attack.detected"
                · simp +decide [formatVercelMessageForTelegram, formatCore, recognizedTypes,
                    h1, h2, h3, h4, h5, h6, h7, h8]
                · simp +decide [formatVercelMessageForTelegram, formatCore, recognizedTypes,
                    h1, h2, h3, h4, h5, h6, h7, h8]

/-- Instantiation of the amended C4 theorem: the recognized scenario event
emits no log. -/
theorem formatVercelMessage_logs_characterized_check :
    (formatVercelMessageForTelegram locFix scenarioEvent).logs = [] := by
  rw [formatVercelMessage_logs_characterized locFix scenarioEvent]
  decide

/-- A newline-join of a nonempty line list whose first line is nonempty is
itself nonempty. -/
theorem joinLines_ne_nil (ls : List Str) (h : ls ≠ []) (hh : ls.headI ≠ []) :
    joinLines ls ≠ [] := by
  cases ls with
  | nil => exact absurd rfl h
  | cons l rest =>
    cases rest with
    | nil => simpa [joinLines] using hh
    | cons m ms => simp [joinLines]

/-- C9: for every webhook value, with any event-type string and any subset of
the optional payload objects absent, the formatter totally computes a
nonempty line list whose first line is one of the branch titles, the joined
message text is nonempty, and absent optional text fields render as empty
strings (witnessed by the attack lines when `payload.attack` is absent). -/
theorem formatVercelMessage_total_shape (loc : Int → Str) (w : VercelWebhook) :
    (formatCore loc w).1 ≠ [] ∧
    (formatCore loc w).1.headI ∈ titleLines ∧
    (formatVercelMessageForTelegram loc w).text ≠ [] ∧
    (w.type = S "attack.detected" → w.payload.attack = none →
      S "*Attack Type:* ``" ∈ (formatCore loc w).1 ∧
      S "*Description:* " ∈ (formatCore loc w).1) := by
  by_cases h1 : w.type = S "deployment.created"
  · have hne : (formatCore loc w).1 ≠ [] := by simp +decide [formatCore, h1]
    have hhead : (formatCore loc w).1.headI = S "🚀 *Deployment Created*" := by
      simp +decide [formatCore, h1]
    refine ⟨hne, by rw [hhead]; decide,
      joinLines_ne_nil _ hne (by rw [hhead]; decide), ?_⟩
    intro ha _
    rw [h1] at ha
    exact absurd ha (by decide)
  · by_cases h2 : w.type = S "deployment.succeeded"
    · have hne : (formatCore loc w).1 ≠ [] := by simp +decide [formatCore, h1, h2]
      have hhead : (formatCore loc w).1.headI = S "✅ *Deployment Succeeded*" := by
        simp +decide [formatCore, h1, h2]
      refine ⟨hne, by rw [hhead]; decide,
        joinLines_ne_nil _ hne (by rw [hhead]; decide), ?_⟩
      intro ha _
      rw [h2] at ha
      exact absurd ha (by decide)
    · by_cases h3 : w.type = S "deployment.error"
      · have hne : (formatCore loc w).1 ≠ [] := by
          simp +decide [formatCore, h1, h2, h3]
        have hhead : (formatCore loc w).1.headI = S "❌ *Deployment Error*" := by
          simp +decide [formatCore, h1, h2, h3]
        refine ⟨hne, by rw [hhead]; decide,
          joinLines_ne_nil _ hne (by rw [hhead]; decide), ?_⟩
        intro ha _
        rw [h3] at ha
        exact absurd ha (by decide)
      · by_cases h4 : w.type = S "deployment.canceled"
        · have hne : (formatCore loc w).1 ≠ [] := by
            simp +decide [formatCore, h1, h2, h3, h4]
          have hhead : (formatCore loc w).1.headI = S "🚫 *Deployment Canceled*" := by
            simp +decide [formatCore, h1, h2, h3, h4]
          refine ⟨hne, by rw [hhead]; decide,
            joinLines_ne_nil _ hne (by rw [hhead]; decide), ?_⟩
          intro ha _
          rw [h4] at ha
          exact absurd ha (by decide)
        · by_cases h5 : w.type = S "deployment.promoted"
          · have hne : (formatCore loc w).1 ≠ [] := by
              simp +decide [formatCore, h1, h2, h3, h4, h5]
            have hhead : (formatCore loc w).1.headI =
                S "🌟 *Deployment Promoted to Production*" := by
              simp +decide [formatCore, h1, h2, h3, h4, h5]
            refine ⟨hne, by rw [hhead]; decide,
              joinLines_ne_nil _ hne (by rw [hhead]; decide), ?_⟩
            intro ha _
            rw [h5] at ha
            exact absurd ha (by decide)
          · by_cases h6 : w.type = S "project.created"
            · have hne : (formatCore loc w).1 ≠ [] := by
                simp +decide [formatCore, h1, h2, h3, h4, h5, h6]
              have hhead : (formatCore loc w).1.headI = S "🎉 *Project Created*" := by
                simp +decide [formatCore, h1, h2, h3, h4, h5, h6]
              refine ⟨hne, by rw [hhead]; decide,
                joinLines_ne_nil _ hne (by rw [hhead]; decide), ?_⟩
              intro ha _
              rw [h6] at ha
              exact absurd ha (by decide)
            · by_cases h7 : w.type = S "project.removed"
              · have hne : (formatCore loc w).1 ≠ [] := by
                  simp +decide [formatCore, h1, h2, h3, h4, h5, h6, h7]
                have hhead : (formatCore loc w).1.headI = S "🗑️ *Project Removed*" := by
                  simp +decide [formatCore, h1, h2, h3, h4, h5, h6, h7]
                refine ⟨hne, by rw [hhead]; decide,
                  joinLines_ne_nil _ hne (by rw [hhead]; decide), ?_⟩
                intro ha _
                rw [h7] at ha
                exact absurd ha (by decide)
              · by_cases h8 : w.type = S "attack.detected"
                · have hne : (formatCore loc w).1 ≠ [] := by
                    simp +decide [formatCore, h1, h2, h3, h4, h5, h6, h7, h8]
                  have hhead : (formatCore loc w).1.headI =
                      S "🛡️ *Security Attack Detected*" := by
                    simp +decide [formatCore, h1, h2, h3, h4, h5, h6, h7, h8]
                  refine ⟨hne, by rw [hhead]; decide,
                    joinLines_ne_nil _ hne (by rw [hhead]; decide), ?_⟩
                  intro _ hatt
                  constructor
                  · simp +decide [formatCore, h1, h2, h3, h4, h5, h6, h7, h8, hatt]
                  · simp +decide [formatCore, h1, h2, h3, h4, h5, h6, h7, h8, hatt]
                · have hne : (formatCore loc w).1 ≠ [] := by
                    simp +decide [formatCore, h1, h2, h3, h4, h5, h6, h7, h8]
                  have hhead : (formatCore loc w).1.headI =
                      S "ℹ️ *Vercel Notification*" := by
                    simp +decide [formatCore, h1, h2, h3, h4, h5, h6, h7, h8]
                  refine ⟨hne, by rw [hhead]; decide,
                    joinLines_ne_nil _ hne (by rw [hhead]; decide), ?_⟩
                  intro ha _
                  exact absurd ha h8

/-- Instantiation of the C9 theorem at the unrecognized-type event. -/
theorem formatVercelMessage_total_shape_check :
    (formatCore locFix unknownEvent).1 ≠ [] ∧
    (formatCore locFix unknownEvent).1.headI ∈ titleLines ∧
    (formatVercelMessageForTelegram locFix unknownEvent).text ≠ [] ∧
    (unknownEvent.type = S "attack.detected" → unknownEvent.payload.attack = none →
      S "*Attack Type:* ``" ∈ (formatCore locFix unknownEvent).1 ∧
      S "*Description:* " ∈ (formatCore locFix unknownEvent).1) :=
  formatVercelMessage_total_shape locFix unknownEvent

-- Helper lemmas about the handler pipeline.

/-- After signature verification the handler can only answer 400, 200 or 500:
no 401 is produced past the comparison. -/
theorem handleVerified_status_ne (ctx : HandlerCtx) (env : Env) (b : List Nat)
    (t : List TraceEvent) : (handleVerified ctx env b t).status ≠ 401 := by
  cases hp : ctx.parseJsonBytes b with
  | none => simp [handleVerified, hp]
  | some wp =>
    cases hc : env.TELEGRAM_TARGET_CHAT_ID with
    | none => simp [handleVerified, hp, hc]
    | some chat =>
      by_cases hce : chat = []
      · simp [handleVerified, hp, hc, hce]
      · by_cases hs : (sendTelegramMessage env.TELEGRAM_BOT_TOKEN chat
            (formatVercelMessageForTelegram ctx.toLocaleString wp).text
            (some ParseMode.markdownV2) ctx.fetchOutcome).success
        · simp [handleVerified, hp, hc, hce, hs]
        · simp [handleVerified, hp, hc, hce, hs]

/-- The trace of the post-verification tail: the inherited prefix `t`, then
the JSON-parse event over exactly the raw body bytes, then only dispatcher
and HTTP-request events. -/
theorem handleVerified_trace_shape (ctx : HandlerCtx) (env : Env) (b : List Nat)
    (t : List TraceEvent) :
    ∃ o rest, (handleVerified ctx env b t).trace =
        t ++ TraceEvent.jsonParsed b o :: rest ∧
      ∀ e ∈ rest, (∃ c x m, e = TraceEvent.dispatched c x m) ∨
        ∃ p, e = TraceEvent.httpRequest p := by
  cases hp : ctx.parseJsonBytes b with
  | none => exact ⟨false, [], by simp [handleVerified, hp], by simp⟩
  | some wp =>
    cases hc : env.TELEGRAM_TARGET_CHAT_ID with
    | none => exact ⟨true, [], by simp [handleVerified, hp, hc], by simp⟩
    | some chat =>
      by_cases hce : chat = []
      · exact ⟨true, [], by simp [handleVerified, hp, hc, hce], by simp⟩
      · refine ⟨true,
          TraceEvent.dispatched chat
              (formatVercelMessageForTelegram ctx.toLocaleString wp).text
              (some ParseMode.markdownV2)
            :: (sendTelegramMessage env.TELEGRAM_BOT_TOKEN chat
                  (formatVercelMessageForTelegram ctx.toLocaleString wp).text
                  (some ParseMode.markdownV2) ctx.fetchOutcome).requests.map
                TraceEvent.httpRequest, ?_, ?_⟩
        · by_cases hs : (sendTelegramMessage env.TELEGRAM_BOT_TOKEN chat
              (formatVercelMessageForTelegram ctx.toLocaleString wp).text
              (some ParseMode.markdownV2) ctx.fetchOutcome).success
          · simp [handleVerified, hp, hc, hce, hs]
          · simp [handleVerified, hp, hc, hce, hs]
        · rintro e he
          rcases List.mem_cons.mp he with rfl | hm
          · exact Or.inl ⟨_, _, _, rfl⟩
          · rcases List.mem_map.mp hm with ⟨p, _, rfl⟩
            exact Or.inr ⟨p, rfl⟩

/-- Exhaustive shape of a handler trace: either the run ended before the
digest was computed (empty trace), or the body and header were read and the
trace is one of: digest only (length mismatch, no comparison made); digest
plus a failed comparison of two equal-length buffers; or digest, successful
equal-length comparison, JSON parse of exactly the raw body bytes, then only
dispatcher and HTTP events. In particular `timingSafeEqual` is only ever
recorded with equal-length buffers, and a parse event only after a
successful comparison. -/
theorem handler_trace_shape (ctx : HandlerCtx) (env : Env) (req : VercelRequest) :
    (handler ctx env req).trace = [] ∨
    ∃ secret sig b,
      env.VERCEL_WEBHOOK_SECRET = some secret ∧
      req.signatureHeader = some sig ∧ req.rawBody = some b ∧
      ((handler ctx env req).trace =
          [TraceEvent.computedDigest b (ctx.hmacSha1Hex b secret)] ∨
        ((utf8Encode sig).length = (utf8Encode (ctx.hmacSha1Hex b secret)).length ∧
          ((handler ctx env req).trace =
              [TraceEvent.computedDigest b (ctx.hmacSha1Hex b secret),
                TraceEvent.timingSafeCompared (utf8Encode sig)
                  (utf8Encode (ctx.hmacSha1Hex b secret)) false] ∨
            ∃ o rest,
              (handler ctx env req).trace =
                TraceEvent.computedDigest b (ctx.hmacSha1Hex b secret) ::
                TraceEvent.timingSafeCompared (utf8Encode sig)
                  (utf8Encode (ctx.hmacSha1Hex b secret)) true ::
                TraceEvent.jsonParsed b o :: rest ∧
              ∀ e ∈ rest, (∃ c x m, e = TraceEvent.dispatched c x m) ∨
                ∃ p, e = TraceEvent.httpRequest p))) := by
  by_cases hm : req.method ≠ S "POST"
  · left
    simp [handler, hm]
  · cases hsec : env.VERCEL_WEBHOOK_SECRET with
    | none =>
      left
      simp [handler, hm, hsec]
    | some secret =>
      by_cases hse : secret = []
      · left
        simp [handler, hm, hsec, hse]
      · cases hsig : req.signatureHeader with
        | none =>
          left
          simp [handler, hm, hsec, hse, hsig]
        | some sig =>
          by_cases hsi : sig = []
          · left
            simp [handler, hm, hsec, hse, hsig, hsi]
          · cases hb : req.rawBody with
            | none =>
              left
              simp [handler, hm, hsec, hse, hsig, hsi, hb]
            | some b =>
              right
              refine ⟨secret, sig, b, rfl, rfl, rfl, ?_⟩
              by_cases hlen : (utf8Encode sig).length ≠
                  (utf8Encode (ctx.hmacSha1Hex b secret)).length
              · left
                simp [handler, hm, hsec, hse, hsig, hsi, hb, calculateSha1Hash, hlen]
              · right
                refine ⟨not_ne_iff.mp hlen, ?_⟩
                cases hcmp : timingSafeEqual (utf8Encode sig)
                    (utf8Encode (ctx.hmacSha1Hex b secret)) with
                | false =>
                  left
                  simp [handler, hm, hsec, hse, hsig, hsi, hb, calculateSha1Hash,
                    hlen, hcmp]
                | true =>
                  right
                  have hred : handler ctx env req = handleVerified ctx env b
                      [TraceEvent.computedDigest b (ctx.hmacSha1Hex b secret),
                        TraceEvent.timingSafeCompared (utf8Encode sig)
                          (utf8Encode (ctx.hmacSha1Hex b secret)) true] := by
                    simp [handler, hm, hsec, hse, hsig, hsi, hb, calculateSha1Hash,
                      hlen, hcmp]
                  obtain ⟨o, rest, htr, hrest⟩ := handleVerified_trace_shape ctx env b
                    [TraceEvent.computedDigest b (ctx.hmacSha1Hex b secret),
                      TraceEvent.timingSafeCompared (utf8Encode sig)
                        (utf8Encode (ctx.hmacSha1Hex b secret)) true]
                  refine ⟨o, rest, ?_, hrest⟩
                  rw [hred, htr]
                  simp

/-- C1: a POST whose signature header has a UTF-8 byte length different from
the byte length of the computed digest string is answered 401, the dispatcher
is never invoked, and `timingSafeEqual` is never called (so the length
mismatch cannot surface as an unhandled exception). -/
theorem handler_length_mismatch_rejected (ctx : HandlerCtx) (chat tok : Option Str)
    (secret sig : Str) (b : List Nat)
    (hse : secret ≠ []) (hsi : sig ≠ [])
    (hlen : (utf8Encode sig).length ≠ (utf8Encode (ctx.hmacSha1Hex b secret)).length) :
    (handler ctx ⟨some secret, chat, tok⟩ ⟨S "POST", some sig, some b⟩).status = 401 ∧
    (∀ c x m, TraceEvent.dispatched c x m ∉
      (handler ctx ⟨some secret, chat, tok⟩ ⟨S "POST", some sig, some b⟩).trace) ∧
    (∀ a c r, TraceEvent.timingSafeCompared a c r ∉
      (handler ctx ⟨some secret, chat, tok⟩ ⟨S "POST", some sig, some b⟩).trace) := by
  have hred : handler ctx ⟨some secret, chat, tok⟩ ⟨S "POST", some sig, some b⟩ =
      { status := 401, body := S "Invalid signature due to length mismatch."
        allowHeader := none
        trace := [TraceEvent.computedDigest b (ctx.hmacSha1Hex b secret)] } := by
    simp +decide [handler, calculateSha1Hash, hse, hsi, hlen]
  rw [hred]
  refine ⟨rfl, ?_, ?_⟩ <;> intros <;> simp

/-- Instantiation of the C1 theorem: a three-byte header against a two-byte
digest gives 401 with no comparison and no dispatch. -/
theorem handler_length_mismatch_rejected_check :
    (handler rejectCtx ⟨some (S "s"), none, none⟩
      ⟨S "POST", some (S "abc"), some []⟩).status = 401 ∧
    (∀ c x m, TraceEvent.dispatched c x m ∉
      (handler rejectCtx ⟨some (S "s"), none, none⟩
        ⟨S "POST", some (S "abc"), some []⟩).trace) ∧
    (∀ a c r, TraceEvent.timingSafeCompared a c r ∉
      (handler rejectCtx ⟨some (S "s"), none, none⟩
        ⟨S "POST", some (S "abc"), some []⟩).trace) :=
  handler_length_mismatch_rejected rejectCtx none none (S "s") (S "abc") []
    (by decide) (by decide) (by decide)

/-- C2: presenting exactly the computed digest string as the signature header
passes verification, whatever the body and the secret: the two equal strings
have equal byte lengths, the constant-time comparison succeeds (recorded in
the trace), and the handler does not answer 401. The digest convention is
consistent: the compared expected value is the bare digest and so is the
accepted header. -/
theorem handler_accepts_matching_digest (ctx : HandlerCtx) (chat tok : Option Str)
    (secret : Str) (b : List Nat) (hse : secret ≠ [])
    (hdig : ctx.hmacSha1Hex b secret ≠ []) :
    (handler ctx ⟨some secret, chat, tok⟩
        ⟨S "POST", some (ctx.hmacSha1Hex b secret), some b⟩).status ≠ 401 ∧
    TraceEvent.timingSafeCompared (utf8Encode (ctx.hmacSha1Hex b secret))
        (utf8Encode (ctx.hmacSha1Hex b secret)) true ∈
      (handler ctx ⟨some secret, chat, tok⟩
        ⟨S "POST", some (ctx.hmacSha1Hex b secret), some b⟩).trace := by
  have hred : handler ctx ⟨some secret, chat, tok⟩
      ⟨S "POST", some (ctx.hmacSha1Hex b secret), some b⟩ =
      handleVerified ctx ⟨some secret, chat, tok⟩ b
        [TraceEvent.computedDigest b (ctx.hmacSha1Hex b secret),
          TraceEvent.timingSafeCompared (utf8Encode (ctx.hmacSha1Hex b secret))
            (utf8Encode (ctx.hmacSha1Hex b secret)) true] := by
    simp +decide [handler, calculateSha1Hash, timingSafeEqual, hse, hdig]
  rw [hred]
  constructor
  · exact handleVerified_status_ne ctx ⟨some secret, chat, tok⟩ b _
  · obtain ⟨o, rest, htr, _⟩ :=
      handleVerified_trace_shape ctx ⟨some secret, chat, tok⟩ b
        [TraceEvent.computedDigest b (ctx.hmacSha1Hex b secret),
          TraceEvent.timingSafeCompared (utf8Encode (ctx.hmacSha1Hex b secret))
            (utf8Encode (ctx.hmacSha1Hex b secret)) true]
    rw [htr]
    simp

/-- Instantiation of the C2 theorem at a concrete secret and body. -/
theorem handler_accepts_matching_digest_check :
    (handler rejectCtx ⟨some (S "s"), none, none⟩
        ⟨S "POST", some (rejectCtx.hmacSha1Hex [] (S "s")), some []⟩).status ≠ 401 ∧
    TraceEvent.timingSafeCompared (utf8Encode (rejectCtx.hmacSha1Hex [] (S "s")))
        (utf8Encode (rejectCtx.hmacSha1Hex [] (S "s"))) true ∈
      (handler rejectCtx ⟨some (S "s"), none, none⟩
        ⟨S "POST", some (rejectCtx.hmacSha1Hex [] (S "s")), some []⟩).trace :=
  handler_accepts_matching_digest rejectCtx none none (S "s") []
    (by decide) (by decide)

/-- C3: in every handler run, wherever a JSON-parse event appears in the
trace, a successful `timingSafeEqual` comparison strictly precedes it, the
parsed bytes are precisely the raw body captured by `getRawBody`, and every
digest computation of the run also hashed exactly those raw bytes. -/
theorem handler_parses_only_after_verification (ctx : HandlerCtx) (env : Env)
    (req : VercelRequest) (pre suf : List TraceEvent) (b : List Nat) (ok : Bool)
    (h : (handler ctx env req).trace = pre ++ TraceEvent.jsonParsed b ok :: suf) :
    (∃ x y, TraceEvent.timingSafeCompared x y true ∈ pre) ∧
    req.rawBody = some b ∧
    (∀ i d, TraceEvent.computedDigest i d ∈ (handler ctx env req).trace → i = b) := by
  rcases handler_trace_shape ctx env req with htr |
    ⟨secret, sig, b2, hsec, hsig, hb, hcase⟩
  · rw [htr] at h
    exact absurd h.symm (by simp)
  · rcases hcase with htr | ⟨hleq, hcase2⟩
    · rw [htr] at h
      exfalso
      cases pre with
      | nil => simp at h
      | cons p pre1 => simp at h
    · rcases hcase2 with htr | ⟨o, rest, htr, hrest⟩
      · rw [htr] at h
        exfalso
        cases pre with
        | nil => simp at h
        | cons p pre1 =>
          cases pre1 with
          | nil => simp at h
          | cons q pre2 => simp at h
      · have hbb : b = b2 ∧ (∃ x y, TraceEvent.timingSafeCompared x y true ∈ pre) := by
          rw [htr] at h
          cases pre with
          | nil =>
            rw [List.nil_append] at h
            exact absurd (List.head_eq_of_cons_eq h.symm) (by simp)
          | cons p pre1 =>
            rw [List.cons_append] at h
            have h1 := List.head_eq_of_cons_eq h
            have h2 := List.tail_eq_of_cons_eq h
            cases pre1 with
            | nil =>
              rw [List.nil_append] at h2
              exact absurd (List.head_eq_of_cons_eq h2.symm) (by simp)
            | cons q pre2 =>
              rw [List.cons_append] at h2
              have h3 := List.head_eq_of_cons_eq h2
              have h4 := List.tail_eq_of_cons_eq h2
              cases pre2 with
              | nil =>
                rw [List.nil_append] at h4
                have h5 := List.head_eq_of_cons_eq h4
                have hb2 : b = b2 := by
                  have := h5.symm
                  simp only [TraceEvent.jsonParsed.injEq] at this
                  exact this.1
                exact ⟨hb2, utf8Encode sig, utf8Encode (ctx.hmacSha1Hex b2 secret),
                  by rw [← h3]; simp⟩
              | cons r pre3 =>
                rw [List.cons_append] at h4
                have h6 := List.tail_eq_of_cons_eq h4
                exfalso
                have hjson : TraceEvent.jsonParsed b ok ∈ rest := by
                  rw [h6]
                  simp
                rcases hrest _ hjson with ⟨c, x, m, hx⟩ | ⟨p2, hx⟩ <;> simp at hx
        refine ⟨hbb.2, ?_, ?_⟩
        · rw [hb, hbb.1]
        · intro i d hmem
          rw [htr] at hmem
          rcases List.mem_cons.mp hmem with hx | hmem1
          · rw [hbb.1]
            simp only [TraceEvent.computedDigest.injEq] at hx
            exact hx.1
          · rcases List.mem_cons.mp hmem1 with hx | hmem2
            · simp at hx
            · rcases List.mem_cons.mp hmem2 with hx | hmem3
              · simp at hx
              · rcases hrest _ hmem3 with ⟨c, x, m, hx⟩ | ⟨p2, hx⟩ <;> simp at hx

set_option maxRecDepth 20000 in
/-- Instantiation of the C3 theorem on a concrete verified run (target chat
unset, so the run ends right after the parse event). -/
theorem handler_parses_only_after_verification_check :
    (∃ x y, TraceEvent.timingSafeCompared x y true ∈
      [TraceEvent.computedDigest scenarioBody (S "0a"),
        TraceEvent.timingSafeCompared (utf8Encode (S "0a")) (utf8Encode (S "0a")) true]) ∧
    (VercelRequest.mk (S "POST") (some (S "0a")) (some scenarioBody)).rawBody =
      some scenarioBody ∧
    (∀ i d, TraceEvent.computedDigest i d ∈
        (handler scenarioCtx ⟨some (S "s"), none, none⟩
          ⟨S "POST", some (S "0a"), some scenarioBody⟩).trace →
      i = scenarioBody) :=
  handler_parses_only_after_verification scenarioCtx ⟨some (S "s"), none, none⟩
    ⟨S "POST", some (S "0a"), some scenarioBody⟩
    [TraceEvent.computedDigest scenarioBody (S "0a"),
      TraceEvent.timingSafeCompared (utf8Encode (S "0a")) (utf8Encode (S "0a")) true]
    [] scenarioBody true (by decide)

/-- Every line of a message is an infix of the newline-joined message. -/
theorem mem_isInfix_joinLines (l : Str) (ls : List Str) (h : l ∈ ls) :
    l <:+: joinLines ls := by
  induction ls with
  | nil => cases h
  | cons m ms ih =>
    rcases List.mem_cons.mp h with rfl | hm
    · cases ms with
      | nil =>
        show l <:+: joinLines [l]
        rw [show joinLines [l] = l from rfl]
      | cons m2 ms2 =>
        show l <:+: joinLines (l :: m2 :: ms2)
        rw [show joinLines (l :: m2 :: ms2) = l ++ '\n' :: joinLines (m2 :: ms2) from rfl]
        exact (List.prefix_append l ('\n' :: joinLines (m2 :: ms2))).isInfix
    · cases ms with
      | nil => cases hm
      | cons m2 ms2 =>
        have hi := ih hm
        have hsuf : joinLines (m2 :: ms2) <:+ joinLines (m :: m2 :: ms2) := by
          rw [show joinLines (m :: m2 :: ms2) = m ++ '\n' :: joinLines (m2 :: ms2) from rfl]
          exact ((List.suffix_cons '\n' (joinLines (m2 :: ms2))).trans
            (List.suffix_append m ('\n' :: joinLines (m2 :: ms2))))
        exact hi.trans hsuf.isInfix

/-- The exact line list the formatter produces for the scenario event, for
any locale rendering of the timestamp. -/
theorem scenario_event_lines (loc : Int → Str) :
    (formatCore loc scenarioEvent).1 =
      [S "✅ *Deployment Succeeded*",
        S "*Project:* my\\-app",
        S "*Deployment URL:* [my\\-app\\.vercel\\.app](my\\-app\\.vercel\\.app)",
        S "*Time:* `" ++ escapeCore (loc 1700000000000) ++ S "`",
        S "🎯 *Target:* `PRODUCTION`",
        S "*Domains:* `my\\-app\\.com`"] := rfl

/-- C8: for the `deployment.succeeded` scenario event (project `my-app`,
production target, alias `my-app.com`), a POST carrying the correct digest,
with chat id and bot token configured and a healthy transport, is answered
200, and the dispatcher is invoked with a text containing
`Deployment Succeeded`, `PRODUCTION` and the escaped domain `my\-app\.com`. -/
theorem handler_scenario_deployment_succeeded (ctx : HandlerCtx)
    (secret chatId tok : Str) (b : List Nat) (st : Nat) (r : TelegramResponse)
    (hse : secret ≠ []) (hch : chatId ≠ []) (htk : tok ≠ [])
    (hdig : ctx.hmacSha1Hex b secret ≠ [])
    (hparse : ctx.parseJsonBytes b = some scenarioEvent)
    (hfetch : ctx.fetchOutcome = FetchOutcome.response st (some r))
    (hst : responseOk st = true) (hok : r.ok = true) :
    (handler ctx ⟨some secret, some chatId, some tok⟩
        ⟨S "POST", some (ctx.hmacSha1Hex b secret), some b⟩).status = 200 ∧
    ∃ c txt m, TraceEvent.dispatched c txt m ∈
        (handler ctx ⟨some secret, some chatId, some tok⟩
          ⟨S "POST", some (ctx.hmacSha1Hex b secret), some b⟩).trace ∧
      S "Deployment Succeeded" <:+: txt ∧ S "PRODUCTION" <:+: txt ∧
      S "my\\-app\\.com" <:+: txt := by
  have hred : handler ctx ⟨some secret, some chatId, some tok⟩
      ⟨S "POST", some (ctx.hmacSha1Hex b secret), some b⟩ =
      handleVerified ctx ⟨some secret, some chatId, some tok⟩ b
        [TraceEvent.computedDigest b (ctx.hmacSha1Hex b secret),
          TraceEvent.timingSafeCompared (utf8Encode (ctx.hmacSha1Hex b secret))
            (utf8Encode (ctx.hmacSha1Hex b secret)) true] := by
    simp +decide [handler, calculateSha1Hash, timingSafeEqual, hse, hdig]
  have hsend : (sendTelegramMessage (some tok) chatId
      (formatVercelMessageForTelegram ctx.toLocaleString scenarioEvent).text
      (some ParseMode.markdownV2) ctx.fetchOutcome).success = true := by
    simp [sendTelegramMessage, htk, hfetch, hst, hok]
  rw [hred]
  have hred2 : handleVerified ctx ⟨some secret, some chatId, some tok⟩ b
      [TraceEvent.computedDigest b (ctx.hmacSha1Hex b secret),
        TraceEvent.timingSafeCompared (utf8Encode (ctx.hmacSha1Hex b secret))
          (utf8Encode (ctx.hmacSha1Hex b secret)) true] =
      { status := 200, body := S "Notification sent to Telegram."
        allowHeader := none
        trace := [TraceEvent.computedDigest b (ctx.hmacSha1Hex b secret),
            TraceEvent.timingSafeCompared (utf8Encode (ctx.hmacSha1Hex b secret))
              (utf8Encode (ctx.hmacSha1Hex b secret)) true]
          ++ TraceEvent.jsonParsed b true
            :: TraceEvent.dispatched chatId
                (formatVercelMessageForTelegram ctx.toLocaleString scenarioEvent).text
                (some ParseMode.markdownV2)
            :: (sendTelegramMessage (some tok) chatId
                (formatVercelMessageForTelegram ctx.toLocaleString scenarioEvent).text
                (some ParseMode.markdownV2) ctx.fetchOutcome).requests.map
              TraceEvent.httpRequest } := by
    simp [handleVerified, hparse, hch, hsend]
  rw [hred2]
  refine ⟨rfl, chatId,
    (formatVercelMessageForTelegram ctx.toLocaleString scenarioEvent).text,
    some ParseMode.markdownV2, by simp, ?_, ?_, ?_⟩
  · have h1 : S "Deployment Succeeded" <:+: S "✅ *Deployment Succeeded*" := by decide
    refine h1.trans ?_
    show S "✅ *Deployment Succeeded*" <:+:
      joinLines (formatCore ctx.toLocaleString scenarioEvent).1
    refine mem_isInfix_joinLines _ _ ?_
    rw [scenario_event_lines ctx.toLocaleString]
    simp
  · have h1 : S "PRODUCTION" <:+: S "🎯 *Target:* `PRODUCTION`" := by decide
    refine h1.trans ?_
    show S "🎯 *Target:* `PRODUCTION`" <:+:
      joinLines (formatCore ctx.toLocaleString scenarioEvent).1
    refine mem_isInfix_joinLines _ _ ?_
    rw [scenario_event_lines ctx.toLocaleString]
    simp
  · have h1 : S "my\\-app\\.com" <:+: S "*Domains:* `my\\-app\\.com`" := by decide
    refine h1.trans ?_
    show S "*Domains:* `my\\-app\\.com`" <:+:
      joinLines (formatCore ctx.toLocaleString scenarioEvent).1
    refine mem_isInfix_joinLines _ _ ?_
    rw [scenario_event_lines ctx.toLocaleString]
    simp

set_option maxRecDepth 20000 in
/-- Instantiation of the C8 theorem at the fully concrete scenario run. -/
theorem handler_scenario_deployment_succeeded_check :
    (handler scenarioCtx ⟨some (S "s"), some (S "c"), some (S "t")⟩
        ⟨S "POST", some (scenarioCtx.hmacSha1Hex scenarioBody (S "s")),
          some scenarioBody⟩).status = 200 ∧
    ∃ c txt m, TraceEvent.dispatched c txt m ∈
        (handler scenarioCtx ⟨some (S "s"), some (S "c"), some (S "t")⟩
          ⟨S "POST", some (scenarioCtx.hmacSha1Hex scenarioBody (S "s")),
            some scenarioBody⟩).trace ∧
      S "Deployment Succeeded" <:+: txt ∧ S "PRODUCTION" <:+: txt ∧
      S "my\\-app\\.com" <:+: txt :=
  handler_scenario_deployment_succeeded scenarioCtx (S "s") (S "c") (S "t")
    scenarioBody 200 telegramOkBody (by decide) (by decide) (by decide)
    (by decide) (by decide) rfl (by decide) rfl

/-- C10: with `TELEGRAM_BOT_TOKEN` unset, `sendTelegramMessage` returns
`false` immediately, issuing no outbound HTTP request and throwing nothing;
through the handler this surfaces as the ordinary dispatch-failure response,
500 with `Failed to send Telegram notification.`, not as a distinct
misconfiguration response. -/
theorem missing_bot_token_behaviour (ctx : HandlerCtx) (secret chatId : Str)
    (b : List Nat) (ev : VercelWebhook)
    (hse : secret ≠ []) (hch : chatId ≠ []) (hdig : ctx.hmacSha1Hex b secret ≠ [])
    (hparse : ctx.parseJsonBytes b = some ev) :
    (∀ chat txt mode outcome, sendTelegramMessage none chat txt mode outcome =
      { success := false, requests := [] }) ∧
    (handler ctx ⟨some secret, some chatId, none⟩
        ⟨S "POST", some (ctx.hmacSha1Hex b secret), some b⟩).status = 500 ∧
    (handler ctx ⟨some secret, some chatId, none⟩
        ⟨S "POST", some (ctx.hmacSha1Hex b secret), some b⟩).body =
      S "Failed to send Telegram notification." := by
  have hsendnone : ∀ chat txt mode outcome,
      sendTelegramMessage none chat txt mode outcome =
        { success := false, requests := [] } := by
    intro chat txt mode outcome
    rfl
  have hred : handler ctx ⟨some secret, some chatId, none⟩
      ⟨S "POST", some (ctx.hmacSha1Hex b secret), some b⟩ =
      handleVerified ctx ⟨some secret, some chatId, none⟩ b
        [TraceEvent.computedDigest b (ctx.hmacSha1Hex b secret),
          TraceEvent.timingSafeCompared (utf8Encode (ctx.hmacSha1Hex b secret))
            (utf8Encode (ctx.hmacSha1Hex b secret)) true] := by
    simp +decide [handler, calculateSha1Hash, timingSafeEqual, hse, hdig]
  have hfail : (sendTelegramMessage none chatId
      (formatVercelMessageForTelegram ctx.toLocaleString ev).text
      (some ParseMode.markdownV2) ctx.fetchOutcome).success = false := by
    rw [hsendnone]
  refine ⟨hsendnone, ?_, ?_⟩ <;>
    rw [hred] <;> simp [handleVerified, hparse, hch, hfail]

set_option maxRecDepth 20000 in
/-- Instantiation of the C10 theorem at the concrete scenario fixtures. -/
theorem missing_bot_token_behaviour_check :
    (∀ chat txt mode outcome, sendTelegramMessage none chat txt mode outcome =
      { success := false, requests := [] }) ∧
    (handler scenarioCtx ⟨some (S "s"), some (S "c"), none⟩
        ⟨S "POST", some (scenarioCtx.hmacSha1Hex scenarioBody (S "s")),
          some scenarioBody⟩).status = 500 ∧
    (handler scenarioCtx ⟨some (S "s"), some (S "c"), none⟩
        ⟨S "POST", some (scenarioCtx.hmacSha1Hex scenarioBody (S "s")),
          some scenarioBody⟩).body =
      S "Failed to send Telegram notification." :=
  missing_bot_token_behaviour scenarioCtx (S "s") (S "c") scenarioBody
    scenarioEvent (by decide) (by decide) (by decide) (by decide)
